import Mathlib

/-!
Shallow embedding of the USearch SQLite bindings (`src/python/lib_sqlite.cpp`).

Modelling conventions:
* SQLite values are modelled by the inductive `SqliteValue`; the host API
  accessors (`sqlite3_value_type`, `sqlite3_value_blob`, `sqlite3_value_text`,
  `sqlite3_value_bytes`, `sqlite3_value_double`, `sqlite3_value_int`) are the
  evident projections.  Text is a list of characters (byte-level parsing of the
  C code corresponds to character-level parsing here), blobs are lists of byte
  values, and floating-point numbers are modelled exactly as rationals.
* The external metric kernels (usearch's `metric_punned_t`) are excluded from
  the repository sources and are treated, as the specification prescribes, as a
  trusted external library: `sqlite_dense_export` takes the metric factory as a
  parameter `metric_t`.  A raw binary buffer is handed to the kernel as bytes,
  a parsed vector as a list of scalars (`metric_input`).
* Fallible code returns `Except String` carrying the exact C error message.
-/

set_option autoImplicit false

/-- SQLite fundamental datatype codes (`SQLITE_BLOB`, `SQLITE_TEXT`, ...). -/
inductive SqliteType where
  | blobT
  | textT
  | integerT
  | floatT
  | nullT
deriving DecidableEq

/-- A SQLite runtime value (`sqlite3_value`). -/
inductive SqliteValue where
  | blob (bytes : List Nat)
  | text (chars : List Char)
  | integer (value : Int)
  | float (value : ℚ)
  | null
deriving DecidableEq

/-- Host accessor `sqlite3_value_type`. -/
def sqlite3_value_type : SqliteValue → SqliteType
  | .blob _ => .blobT
  | .text _ => .textT
  | .integer _ => .integerT
  | .float _ => .floatT
  | .null => .nullT

/-- Host accessor `sqlite3_value_blob` (only used on BLOB values). -/
def sqlite3_value_blob : SqliteValue → List Nat
  | .blob bs => bs
  | _ => []

/-- Host accessor `sqlite3_value_text` (only used on TEXT values). -/
def sqlite3_value_text : SqliteValue → List Char
  | .text cs => cs
  | _ => []

/-- Host accessor `sqlite3_value_bytes` (only used on BLOB/TEXT values). -/
def sqlite3_value_bytes : SqliteValue → Nat
  | .blob bs => bs.length
  | .text cs => cs.length
  | _ => 0

/-- Host accessor `sqlite3_value_double` (only used on FLOAT values). -/
def sqlite3_value_double : SqliteValue → ℚ
  | .float x => x
  | _ => 0

/-- Host accessor `sqlite3_value_int` (only used on INTEGER values). -/
def sqlite3_value_int : SqliteValue → Int
  | .integer i => i
  | _ => 0

/-- usearch `scalar_kind_t`, restricted to the kinds the bindings register. -/
inductive scalar_kind_t where
  | b1x8_k
  | i8_k
  | f16_k
  | f32_k
  | f64_k
deriving DecidableEq

/-- usearch `metric_kind_t`, restricted to the kinds the bindings register. -/
inductive metric_kind_t where
  | hamming_k
  | jaccard_k
  | haversine_k
  | l2sq_k
  | cos_k
  | ip_k
  | divergence_k
deriving DecidableEq

/-- Modelled from the spec: usearch's `bits_per_scalar`; the ScalarKind
determines the element width (1-bit packed, 8-bit int, 16/32/64-bit float). -/
def bits_per_scalar : scalar_kind_t → Nat
  | .b1x8_k => 1
  | .i8_k => 8
  | .f16_k => 16
  | .f32_k => 32
  | .f64_k => 64

/-- `parsed_scalar_kind_gt`: the scalar type used for parsed (text or column)
vectors is `f32` for every kind except `f64`. -/
def parsed_scalar_kind : scalar_kind_t → scalar_kind_t
  | .f64_k => .f64_k
  | _ => .f32_k

/-- Data handed to an external metric kernel: either the raw bytes of a binary
buffer or a parsed scalar vector. -/
inductive metric_input where
  | bytes (bs : List Nat)
  | scalars (xs : List ℚ)
deriving DecidableEq

/-- The external metric factory `metric_punned_t`: given the dimension count,
metric kind and scalar kind it yields a distance function on two buffers. -/
abbrev metric_factory (D : Type) : Type :=
  Nat → metric_kind_t → scalar_kind_t → metric_input → metric_input → D

/-- `sz_count_char_swar` from stringzilla: number of occurrences of a
character in a string. -/
def sz_count_char_swar (s : List Char) (c : Char) : Nat :=
  s.count c

/-- Greedily consume decimal digits, returning the accumulated value, the
number of digits consumed, and the rest of the input. -/
def take_digits (acc ndigits : Nat) : List Char → Nat × Nat × List Char
  | [] => (acc, ndigits, [])
  | c :: rest =>
    if c.isDigit then take_digits (10 * acc + (c.toNat - '0'.toNat)) (ndigits + 1) rest
    else (acc, ndigits, c :: rest)

/-- Scale factor `10 ^ e` for a parsed exponent. -/
def pow_ten : Int → ℚ
  | .ofNat n => (10 : ℚ) ^ n
  | .negSucc n => 1 / (10 : ℚ) ^ (n + 1)

/-- Parse an optional exponent part `[eE][+-]?digits`; if no well-formed
exponent follows, consume nothing (as `std::from_chars` does for the longest
valid prefix). -/
def parse_exponent (s : List Char) : Int × List Char :=
  match s with
  | c :: rest =>
    if c = 'e' ∨ c = 'E' then
      match rest with
      | '-' :: rest2 =>
        match take_digits 0 0 rest2 with
        | (v, n, r) => if n = 0 then (0, c :: rest) else (-(v : Int), r)
      | '+' :: rest2 =>
        match take_digits 0 0 rest2 with
        | (v, n, r) => if n = 0 then (0, c :: rest) else ((v : Int), r)
      | _ =>
        match take_digits 0 0 rest with
        | (v, n, r) => if n = 0 then (0, c :: rest) else ((v : Int), r)
    else (0, c :: rest)
  | [] => (0, [])

/-- Parse a mantissa `digits[.digits]`; at least one digit must be present. -/
def parse_mantissa (s : List Char) : Option (ℚ × List Char) :=
  match take_digits 0 0 s with
  | (ip, ni, r1) =>
    match r1 with
    | '.' :: r2 =>
      match take_digits 0 0 r2 with
      | (fp, nf, r3) =>
        if ni = 0 ∧ nf = 0 then none
        else some ((ip : ℚ) + (fp : ℚ) / (10 : ℚ) ^ nf, r3)
    | _ => if ni = 0 then none else some ((ip : ℚ), r1)

/-- Parse an unsigned numeral with optional fraction and exponent. -/
def parse_unsigned (s : List Char) : Option (ℚ × List Char) :=
  match parse_mantissa s with
  | none => none
  | some (m, r) =>
    match parse_exponent r with
    | (e, r2) => some (m * pow_ten e, r2)

/-- `std::from_chars` for one floating-point numeral: optional leading minus
sign, then mantissa and exponent; floats are modelled exactly as rationals. -/
def parse_number (s : List Char) : Option (ℚ × List Char) :=
  match s with
  | '-' :: rest => (parse_unsigned rest).map (fun p => (-p.1, p.2))
  | _ => parse_unsigned s

/-- Skip leading spaces (`while (bytes && vec[0] == ' ') ...`). -/
def skip_spaces : List Char → List Char
  | ' ' :: rest => skip_spaces rest
  | s => s

/-- Skip leading spaces and commas
(`while (bytes && (vec[0] == ' ' || vec[0] == ',')) ...`). -/
def skip_spaces_commas : List Char → List Char
  | ' ' :: rest => skip_spaces_commas rest
  | ',' :: rest => skip_spaces_commas rest
  | s => s

/-- Strip one optional leading bracket
(`if (bytes && vec[0] == '[') ++vec, --bytes`). -/
def strip_bracket : List Char → List Char
  | [] => []
  | c :: rest => if c = '[' then rest else c :: rest

/-- The parsing loop of the delimited-text branch: `dimensions` times, skip
whitespace, parse one numeral from each string (failing if either parse
fails), then skip whitespace and separators. -/
def parse_vectors : Nat → List Char → List Char → Option (List ℚ × List ℚ)
  | 0, _, _ => some ([], [])
  | n + 1, s1, s2 =>
    match parse_number (skip_spaces s1), parse_number (skip_spaces s2) with
    | some (x1, r1), some (x2, r2) =>
      (parse_vectors n (skip_spaces_commas r1) (skip_spaces_commas r2)).map
        (fun p => (x1 :: p.1, x2 :: p.2))
    | _, _ => none

/-- The delimited-text builder: compare separator counts, strip the optional
leading bracket from each string, and parse `commas + 1` numerals from each;
returns the dimension and the two parsed vectors. -/
def text_parse (v1 v2 : List Char) : Except String (Nat × List ℚ × List ℚ) :=
  if sz_count_char_swar v1 ',' ≠ sz_count_char_swar v2 ',' then
    .error "Vectors have different number of dimensions"
  else
    match parse_vectors (sz_count_char_swar v1 ',' + 1) (strip_bracket v1) (strip_bracket v2) with
    | none => .error "Number can't be parsed"
    | some (p1, p2) => .ok (sz_count_char_swar v1 ',' + 1, p1, p2)

/-- Column coercion of the scalar-column branch: FLOAT as-is, INTEGER widened,
NULL as zero, anything else is unsupported. -/
def parse_column (v : SqliteValue) : Except String ℚ :=
  match sqlite3_value_type v with
  | .floatT => .ok (sqlite3_value_double v)
  | .integerT => .ok ((sqlite3_value_int v : ℚ))
  | .nullT => .ok 0
  | _ => .error "Scalar columns may only contain 32-bit integers, floats, or NULLs."

/-- The parsing loop of the scalar-column branch: for each index, coerce the
element of the first half and then the element of the second half, with early
return on the first unsupported value. -/
def parse_column_pairs : List SqliteValue → List SqliteValue → Except String (List ℚ × List ℚ)
  | a :: as, b :: bs =>
    match parse_column a with
    | .error e => .error e
    | .ok x =>
      match parse_column b with
      | .error e => .error e
      | .ok y =>
        match parse_column_pairs as bs with
        | .error e => .error e
        | .ok p => .ok (x :: p.1, y :: p.2)
  | _, _ => .ok ([], [])

/-- Detector condition of the primary branch: exactly two arguments, both
BLOBs. -/
def is_blob_pair (argv : List SqliteValue) : Bool :=
  decide (argv.length = 2 ∧
    sqlite3_value_type (argv.getD 0 .null) = SqliteType.blobT ∧
    sqlite3_value_type (argv.getD 1 .null) = SqliteType.blobT)

/-- Detector condition of the text branch: exactly two arguments, both TEXT. -/
def is_text_pair (argv : List SqliteValue) : Bool :=
  decide (argv.length = 2 ∧
    sqlite3_value_type (argv.getD 0 .null) = SqliteType.textT ∧
    sqlite3_value_type (argv.getD 1 .null) = SqliteType.textT)

/-- Binary branch of `sqlite_dense_export`: two BLOBs of equal byte length are
handed directly to the kernel; the dimension is derived from the byte length
and the scalar width. -/
def blob_branch {D : Type} (scalar_kind_ak : scalar_kind_t) (metric_kind_ak : metric_kind_t)
    (metric_t : metric_factory D) (a0 a1 : SqliteValue) : Except String D :=
  if sqlite3_value_bytes a0 ≠ sqlite3_value_bytes a1 then
    .error "Vectors have different number of dimensions"
  else
    .ok (metric_t (sqlite3_value_bytes a0 * 8 / bits_per_scalar scalar_kind_ak)
      metric_kind_ak scalar_kind_ak
      (.bytes (sqlite3_value_blob a0)) (.bytes (sqlite3_value_blob a1)))

/-- Text branch of `sqlite_dense_export`: parse both strings and hand the two
parsed vectors to the kernel. -/
def text_branch {D : Type} (scalar_kind_ak : scalar_kind_t) (metric_kind_ak : metric_kind_t)
    (metric_t : metric_factory D) (a0 a1 : SqliteValue) : Except String D :=
  match text_parse (sqlite3_value_text a0) (sqlite3_value_text a1) with
  | .error e => .error e
  | .ok r => .ok (metric_t r.1 metric_kind_ak (parsed_scalar_kind scalar_kind_ak)
      (.scalars r.2.1) (.scalars r.2.2))

/-- Scalar-column branch of `sqlite_dense_export`: the argument list is split
into two halves and each element is coerced individually. -/
def tuple_branch {D : Type} (scalar_kind_ak : scalar_kind_t) (metric_kind_ak : metric_kind_t)
    (metric_t : metric_factory D) (argv : List SqliteValue) : Except String D :=
  match parse_column_pairs (argv.take (argv.length / 2)) (argv.drop (argv.length / 2)) with
  | .error e => .error e
  | .ok p => .ok (metric_t (argv.length / 2) metric_kind_ak (parsed_scalar_kind scalar_kind_ak)
      (.scalars p.1) (.scalars p.2))

/-- `sqlite_dense_export` from `lib_sqlite.cpp`: detect the argument encoding,
build the two vectors and invoke the metric kernel, or report the first error
encountered. -/
def sqlite_dense_export {D : Type} (scalar_kind_ak : scalar_kind_t)
    (metric_kind_ak : metric_kind_t) (metric_t : metric_factory D)
    (argv : List SqliteValue) : Except String D :=
  if argv.length < 2 then
    .error "Distance function expects at least two arguments"
  else if is_blob_pair argv then
    blob_branch scalar_kind_ak metric_kind_ak metric_t (argv.getD 0 .null) (argv.getD 1 .null)
  else if is_text_pair argv then
    text_branch scalar_kind_ak metric_kind_ak metric_t (argv.getD 0 .null) (argv.getD 1 .null)
  else if argv.length % 2 = 0 then
    tuple_branch scalar_kind_ak metric_kind_ak metric_t argv
  else
    .error "Number of columns in two vectors must be divisible by two"

/-- What a call emits on the host result channels: `sqlite3_result_double`,
`sqlite3_result_error` or `sqlite3_result_int`. -/
inductive SqliteResult (D : Type) where
  | result_double (value : D)
  | result_error (message : String)
  | result_int (value : Nat)
deriving DecidableEq

/-- `sqlite_dense`: run the exporter and adapt its outcome to the host result
channels. -/
def sqlite_dense {D : Type} (scalar_kind_ak : scalar_kind_t)
    (metric_kind_ak : metric_kind_t) (metric_t : metric_factory D)
    (argv : List SqliteValue) : SqliteResult D :=
  match sqlite_dense_export scalar_kind_ak metric_kind_ak metric_t argv with
  | .error e => .result_error e
  | .ok d => .result_double d

/-- `sqlite_haversine_meters`: the f64 haversine exporter whose successful
result is scaled by the mean Earth radius in meters. -/
def sqlite_haversine_meters {D : Type} [Mul D] [OfNat D 6371009]
    (metric_t : metric_factory D) (argv : List SqliteValue) : SqliteResult D :=
  match sqlite_dense_export .f64_k .haversine_k metric_t argv with
  | .error e => .result_error e
  | .ok r => .result_double (r * 6371009)

/-- Modelled from the spec: the external haversine kernel — the great-circle
distance formula on latitude/longitude pairs (unit sphere); inputs that are
not two-dimensional are outside the kernel's contract and map to 0. -/
noncomputable def haversine_kernel : List ℚ → List ℚ → ℝ
  | [lat1, lon1], [lat2, lon2] =>
    2 * Real.arcsin (Real.sqrt
      (Real.sin (((lat2 : ℝ) - (lat1 : ℝ)) / 2) ^ 2 +
        Real.cos (lat1 : ℝ) * Real.cos (lat2 : ℝ) *
          Real.sin (((lon2 : ℝ) - (lon1 : ℝ)) / 2) ^ 2))
  | _, _ => 0

/-- The scalar contents a kernel receives; the byte-level reinterpretation of
binary buffers is memory layout outside this embedding, so a raw buffer is
mapped to the empty vector (no claim exercises that case). -/
def scalars_of : metric_input → List ℚ
  | .scalars xs => xs
  | .bytes _ => []

/-- Modelled from the spec: the metric factory as instantiated by
`sqlite_haversine_meters`, always dispatching to the haversine kernel. -/
noncomputable def haversine_metric_t : metric_factory ℝ :=
  fun _ _ _ i1 i2 => haversine_kernel (scalars_of i1) (scalars_of i2)

/-- `sz_string_view_t temporary_memory`: the process-wide scratch buffer,
abstracted to whether its pointer is NULL and its byte length. -/
structure sz_string_view_t where
  start_null : Bool
  length : Nat
deriving DecidableEq

/-- `static sz_string_view_t temporary_memory = {NULL, 0}`. -/
def temporary_memory_init : sz_string_view_t :=
  { start_null := true, length := 0 }

/-- Modelled from the spec: `sz_levenshtein_memory_needed` from stringzilla —
scratch memory proportional to the product of the two string lengths. -/
def sz_levenshtein_memory_needed (bytes1 bytes2 : Nat) : Nat :=
  (bytes1 + 1) * (bytes2 + 1)

/-- Fuelled Levenshtein recursion; the fuel only needs to dominate the sum of
the two lengths. -/
def lev_fuel : Nat → List Char → List Char → Nat
  | 0, _, _ => 0
  | _ + 1, [], b => b.length
  | _ + 1, a, [] => a.length
  | fuel + 1, x :: xs, y :: ys =>
    if x = y then lev_fuel fuel xs ys
    else 1 + min (lev_fuel fuel xs (y :: ys)) (min (lev_fuel fuel (x :: xs) ys) (lev_fuel fuel xs ys))

/-- Modelled from the spec: `sz_levenshtein` from stringzilla — the edit
distance of the two strings capped at the maximum edit cost. -/
def sz_levenshtein (str1 : List Char) (str2 : List Char) (bound : Nat) : Nat :=
  min (lev_fuel (str1.length + str2.length) str1 str2) bound

/-- `sqlite_levenshtein`: reject non-text arguments, grow the scratch buffer
when it is smaller than the required size, and return the capped edit
distance; the function is registered with exactly two parameters. -/
def sqlite_levenshtein (temporary_memory : sz_string_view_t) (arg0 arg1 : SqliteValue) :
    sz_string_view_t × SqliteResult Unit :=
  if sqlite3_value_type arg0 ≠ .textT ∨ sqlite3_value_type arg1 ≠ .textT then
    (temporary_memory, .result_error "Levenshtein distance function expects two text arguments")
  else
    ((if temporary_memory.length <
          sz_levenshtein_memory_needed (sqlite3_value_bytes arg0) (sqlite3_value_bytes arg1) then
        { start_null := false,
          length := sz_levenshtein_memory_needed (sqlite3_value_bytes arg0) (sqlite3_value_bytes arg1) }
      else temporary_memory),
     .result_int (sz_levenshtein (sqlite3_value_text arg0) (sqlite3_value_text arg1) 255))

/-- `cleanup_temporary_memory`: free the buffer if its pointer is not NULL and
reset it; the second component counts the `sqlite3_free` calls performed. -/
def cleanup_temporary_memory (temporary_memory : sz_string_view_t) : sz_string_view_t × Nat :=
  if temporary_memory.start_null = false then ({ start_null := true, length := 0 }, 1)
  else (temporary_memory, 0)

/-- Scratch-buffer state after a sequence of `distance_levenshtein` calls. -/
def run_levenshtein_calls (temporary_memory : sz_string_view_t) :
    List (SqliteValue × SqliteValue) → sz_string_view_t
  | [] => temporary_memory
  | (a, b) :: rest => run_levenshtein_calls (sqlite_levenshtein temporary_memory a b).1 rest

/-- The scratch size a `distance_levenshtein` call requests, when it reaches
the kernel (both arguments are text). -/
def levenshtein_requested (arg0 arg1 : SqliteValue) : Option Nat :=
  if sqlite3_value_type arg0 = SqliteType.textT ∧ sqlite3_value_type arg1 = SqliteType.textT then
    some (sz_levenshtein_memory_needed (sqlite3_value_bytes arg0) (sqlite3_value_bytes arg1))
  else none

/-- A value the scalar-column branch accepts: FLOAT, INTEGER or NULL. -/
def scalar_column_ok (v : SqliteValue) : Prop :=
  sqlite3_value_type v = SqliteType.floatT ∨ sqlite3_value_type v = SqliteType.integerT ∨
    sqlite3_value_type v = SqliteType.nullT

instance (v : SqliteValue) : Decidable (scalar_column_ok v) := by
  unfold scalar_column_ok; infer_instance

/-- The coercion the scalar-column branch applies to an accepted value:
FLOAT as-is, INTEGER widened to the parsed scalar type, NULL as zero. -/
def column_value (v : SqliteValue) : ℚ :=
  match sqlite3_value_type v with
  | .floatT => sqlite3_value_double v
  | .integerT => (sqlite3_value_int v : ℚ)
  | _ => 0

/-! ### Helper lemmas -/

theorem count_comma_lbrack_cons (s : List Char) :
    sz_count_char_swar ('[' :: s) ',' = sz_count_char_swar s ',' := by
  simp [sz_count_char_swar, List.count_cons]

theorem strip_bracket_lbrack (s : List Char) : strip_bracket ('[' :: s) = s := by
  simp [strip_bracket]

theorem strip_bracket_head_ne (s : List Char) (h : s.head? ≠ some '[') :
    strip_bracket s = s := by
  cases s with
  | nil => rfl
  | cons c cs =>
    have hc : c ≠ '[' := by simpa using h
    simp [strip_bracket, hc]

theorem parse_column_of_ok (v : SqliteValue) (h : scalar_column_ok v) :
    parse_column v = .ok (column_value v) := by
  rcases h with h | h | h <;> simp [parse_column, column_value, h]

theorem parse_column_of_bad (v : SqliteValue) (h : ¬ scalar_column_ok v) :
    parse_column v = .error "Scalar columns may only contain 32-bit integers, floats, or NULLs." := by
  cases hv : sqlite3_value_type v with
  | floatT => exact absurd (Or.inl hv) h
  | integerT => exact absurd (Or.inr (Or.inl hv)) h
  | nullT => exact absurd (Or.inr (Or.inr hv)) h
  | blobT => simp [parse_column, hv]
  | textT => simp [parse_column, hv]

theorem parse_column_pairs_all_ok (as : List SqliteValue) :
    ∀ bs : List SqliteValue, as.length = bs.length →
    (∀ v ∈ as, scalar_column_ok v) → (∀ v ∈ bs, scalar_column_ok v) →
    parse_column_pairs as bs = .ok (as.map column_value, bs.map column_value) := by
  induction as with
  | nil =>
    intro bs hlen _ _
    cases bs with
    | nil => rfl
    | cons b bs => exact absurd hlen (by simp)
  | cons a as ih =>
    intro bs hlen ha hb
    cases bs with
    | nil => exact absurd hlen (by simp)
    | cons b bs =>
      have ihr := ih bs (by simpa using hlen)
        (fun v hv => ha v (List.mem_cons_of_mem _ hv))
        (fun v hv => hb v (List.mem_cons_of_mem _ hv))
      simp [parse_column_pairs, parse_column_of_ok a (ha a (List.mem_cons_self a as)),
        parse_column_of_ok b (hb b (List.mem_cons_self b bs)), ihr]

theorem parse_column_pairs_bad (as : List SqliteValue) :
    ∀ bs : List SqliteValue, as.length = bs.length →
    ((∃ v ∈ as, ¬ scalar_column_ok v) ∨ (∃ v ∈ bs, ¬ scalar_column_ok v)) →
    parse_column_pairs as bs =
      .error "Scalar columns may only contain 32-bit integers, floats, or NULLs." := by
  induction as with
  | nil =>
    intro bs hlen hbad
    cases bs with
    | nil => simp at hbad
    | cons b bs => exact absurd hlen (by simp)
  | cons a as ih =>
    intro bs hlen hbad
    cases bs with
    | nil => exact absurd hlen (by simp)
    | cons b bs =>
      by_cases hA : scalar_column_ok a
      · by_cases hB : scalar_column_ok b
        · have hbad' : (∃ v ∈ as, ¬ scalar_column_ok v) ∨ (∃ v ∈ bs, ¬ scalar_column_ok v) := by
            rcases hbad with ⟨v, hv, hnv⟩ | ⟨v, hv, hnv⟩
            · rcases List.mem_cons.mp hv with rfl | hv'
              · exact absurd hA hnv
              · exact Or.inl ⟨v, hv', hnv⟩
            · rcases List.mem_cons.mp hv with rfl | hv'
              · exact absurd hB hnv
              · exact Or.inr ⟨v, hv', hnv⟩
          have ihr := ih bs (by simpa using hlen) hbad'
          simp [parse_column_pairs, parse_column_of_ok a hA, parse_column_of_ok b hB, ihr]
        · simp [parse_column_pairs, parse_column_of_ok a hA, parse_column_of_bad b hB]
      · simp [parse_column_pairs, parse_column_of_bad a hA]

theorem error_cast {D D₂ : Type} {s e : String} (h : @Except.error String D s = Except.error e) :
    @Except.error String D₂ s = Except.error e := by
  have hs : s = e := by simpa using h
  rw [hs]

theorem blob_branch_error_indep {D D₂ : Type} {sk sk₂ : scalar_kind_t} {mk mk₂ : metric_kind_t}
    {m : metric_factory D} {m₂ : metric_factory D₂} {a0 a1 : SqliteValue} {e : String}
    (h : blob_branch sk mk m a0 a1 = .error e) : blob_branch sk₂ mk₂ m₂ a0 a1 = .error e := by
  unfold blob_branch at h ⊢
  by_cases h3 : sqlite3_value_bytes a0 ≠ sqlite3_value_bytes a1
  · rw [if_pos h3] at h ⊢; exact error_cast h
  · rw [if_neg h3] at h; simp at h

theorem text_branch_error_indep {D D₂ : Type} {sk sk₂ : scalar_kind_t} {mk mk₂ : metric_kind_t}
    {m : metric_factory D} {m₂ : metric_factory D₂} {a0 a1 : SqliteValue} {e : String}
    (h : text_branch sk mk m a0 a1 = .error e) : text_branch sk₂ mk₂ m₂ a0 a1 = .error e := by
  unfold text_branch at h ⊢
  cases htp : text_parse (sqlite3_value_text a0) (sqlite3_value_text a1) with
  | error e2 =>
    rw [htp] at h
    have he : e2 = e := by simpa using h
    simp [he]
  | ok r => rw [htp] at h; simp at h

theorem tuple_branch_error_indep {D D₂ : Type} {sk sk₂ : scalar_kind_t} {mk mk₂ : metric_kind_t}
    {m : metric_factory D} {m₂ : metric_factory D₂} {argv : List SqliteValue} {e : String}
    (h : tuple_branch sk mk m argv = .error e) : tuple_branch sk₂ mk₂ m₂ argv = .error e := by
  unfold tuple_branch at h ⊢
  cases hpc : parse_column_pairs (argv.take (argv.length / 2)) (argv.drop (argv.length / 2)) with
  | error e2 =>
    rw [hpc] at h
    have he : e2 = e := by simpa using h
    simp [he]
  | ok p => rw [hpc] at h; simp at h

theorem export_error_indep {D D₂ : Type} (sk : scalar_kind_t) (mk : metric_kind_t)
    (m : metric_factory D) (m₂ : metric_factory D₂) (argv : List SqliteValue) (e : String)
    (h : sqlite_dense_export sk mk m argv = .error e) :
    sqlite_dense_export sk mk m₂ argv = .error e := by
  unfold sqlite_dense_export at h ⊢
  by_cases h1 : argv.length < 2
  · rw [if_pos h1] at h ⊢; exact error_cast h
  · rw [if_neg h1] at h ⊢
    by_cases h2 : is_blob_pair argv = true
    · rw [if_pos h2] at h ⊢; exact blob_branch_error_indep h
    · rw [if_neg h2] at h ⊢
      by_cases h4 : is_text_pair argv = true
      · rw [if_pos h4] at h ⊢; exact text_branch_error_indep h
      · rw [if_neg h4] at h ⊢
        by_cases h5 : argv.length % 2 = 0
        · rw [if_pos h5] at h ⊢; exact tuple_branch_error_indep h
        · rw [if_neg h5] at h ⊢; exact error_cast h

theorem sqlite_levenshtein_state_text (mem : sz_string_view_t) (a b : SqliteValue) (r : Nat)
    (h : levenshtein_requested a b = some r) :
    (sqlite_levenshtein mem a b).1 =
      if mem.length < r then { start_null := false, length := r } else mem := by
  unfold levenshtein_requested at h
  split at h
  · next hc =>
    obtain ⟨h1, h2⟩ := hc
    injection h with h
    subst h
    unfold sqlite_levenshtein
    rw [if_neg (by simp [h1, h2])]
  · exact absurd h (by simp)

theorem sqlite_levenshtein_state_other (mem : sz_string_view_t) (a b : SqliteValue)
    (h : levenshtein_requested a b = none) :
    (sqlite_levenshtein mem a b).1 = mem := by
  unfold levenshtein_requested at h
  split at h
  · exact absurd h (by simp)
  · next hc =>
    unfold sqlite_levenshtein
    rw [if_pos (by tauto)]

theorem sqlite_levenshtein_length_mono (mem : sz_string_view_t) (a b : SqliteValue) :
    mem.length ≤ (sqlite_levenshtein mem a b).1.length := by
  cases h : levenshtein_requested a b with
  | none => rw [sqlite_levenshtein_state_other mem a b h]
  | some r =>
    rw [sqlite_levenshtein_state_text mem a b r h]
    by_cases hl : mem.length < r
    · rw [if_pos hl]; exact le_of_lt hl
    · rw [if_neg hl]

theorem run_levenshtein_length_mono (calls : List (SqliteValue × SqliteValue)) :
    ∀ mem : sz_string_view_t, mem.length ≤ (run_levenshtein_calls mem calls).length := by
  induction calls with
  | nil => intro mem; exact le_rfl
  | cons p rest ih =>
    intro mem
    obtain ⟨a, b⟩ := p
    exact le_trans (sqlite_levenshtein_length_mono mem a b) (ih _)

theorem run_levenshtein_requested_le (calls : List (SqliteValue × SqliteValue)) :
    ∀ (mem : sz_string_view_t) (a b : SqliteValue) (r : Nat), (a, b) ∈ calls →
      levenshtein_requested a b = some r → r ≤ (run_levenshtein_calls mem calls).length := by
  induction calls with
  | nil => intro _ _ _ _ h; cases h
  | cons p rest ih =>
    intro mem a b r hmem hreq
    obtain ⟨a0, b0⟩ := p
    rcases List.mem_cons.mp hmem with heq | htail
    · cases heq
      have h1 : r ≤ (sqlite_levenshtein mem a b).1.length := by
        rw [sqlite_levenshtein_state_text mem a b r hreq]
        by_cases hl : mem.length < r
        · rw [if_pos hl]
        · rw [if_neg hl]; omega
      exact le_trans h1 (run_levenshtein_length_mono rest _)
    · exact ih _ a b r htail hreq

theorem export_tuple_route {D : Type} (sk : scalar_kind_t) (mk : metric_kind_t)
    (m : metric_factory D) (argv : List SqliteValue)
    (hge : 2 ≤ argv.length) (hnb : is_blob_pair argv = false) (hnt : is_text_pair argv = false)
    (heven : argv.length % 2 = 0) :
    sqlite_dense_export sk mk m argv = tuple_branch sk mk m argv := by
  unfold sqlite_dense_export
  rw [if_neg (by omega), if_neg (by simp [hnb]), if_neg (by simp [hnt]), if_pos heven]

theorem blob_branch_len_mismatch {D : Type} (sk : scalar_kind_t) (mk : metric_kind_t)
    (m : metric_factory D) (b1 b2 : List Nat) (h : b1.length ≠ b2.length) :
    blob_branch sk mk m (SqliteValue.blob b1) (SqliteValue.blob b2) =
      .error "Vectors have different number of dimensions" := by
  unfold blob_branch
  exact if_pos h

theorem text_parse_comma_mismatch (s1 s2 : List Char)
    (h : sz_count_char_swar s1 ',' ≠ sz_count_char_swar s2 ',') :
    text_parse s1 s2 = .error "Vectors have different number of dimensions" := by
  unfold text_parse
  exact if_pos h

theorem text_branch_comma_mismatch {D : Type} (sk : scalar_kind_t) (mk : metric_kind_t)
    (m : metric_factory D) (s1 s2 : List Char)
    (h : sz_count_char_swar s1 ',' ≠ sz_count_char_swar s2 ',') :
    text_branch sk mk m (SqliteValue.text s1) (SqliteValue.text s2) =
      .error "Vectors have different number of dimensions" := by
  unfold text_branch
  rw [show sqlite3_value_text (SqliteValue.text s1) = s1 from rfl,
    show sqlite3_value_text (SqliteValue.text s2) = s2 from rfl,
    text_parse_comma_mismatch s1 s2 h]

theorem hav_kernel_self (v : List ℚ) : haversine_kernel v v = 0 := by
  rcases v with _ | ⟨a, _ | ⟨b, _ | ⟨c, rest⟩⟩⟩
  · rfl
  · rfl
  · show 2 * Real.arcsin (Real.sqrt
        (Real.sin (((a : ℝ) - (a : ℝ)) / 2) ^ 2 +
          Real.cos (a : ℝ) * Real.cos (a : ℝ) *
            Real.sin (((b : ℝ) - (b : ℝ)) / 2) ^ 2)) = 0
    rw [sub_self, sub_self]
    norm_num [Real.sin_zero, Real.sqrt_zero, Real.arcsin_zero]
  · rfl

/-! ### Claims -/

/-- C1 (counterexample): the claim demands that a two-argument call whose
arguments are not both blobs and not both text must fail, but the code routes
any even argument count through the scalar-column branch, so a call with two
INTEGER arguments succeeds as a dimension-1 column tuple. -/
theorem claim_C1_counterexample :
    sqlite_dense_export scalar_kind_t.f64_k metric_kind_t.l2sq_k
      (fun _ _ _ _ _ => (0 : ℚ)) [SqliteValue.integer 1, SqliteValue.integer 2] =
      Except.ok 0 := rfl

/-- C1 (amended): the column-tuple encoding is selected exactly when the
argument count is even (and at least 2) and the call was not already matched
as two binary buffers or two texts; a call with fewer than two arguments
fails with the argument-count message, and an unmatched odd argument count
fails with the divisibility message, computing no distance either way. -/
theorem claim_C1_amended {D : Type} (sk : scalar_kind_t) (mk : metric_kind_t)
    (m : metric_factory D) (argv : List SqliteValue) :
    (argv.length < 2 →
      sqlite_dense_export sk mk m argv =
        .error "Distance function expects at least two arguments") ∧
    (2 ≤ argv.length → is_blob_pair argv = false → is_text_pair argv = false →
      (argv.length % 2 = 0 →
        sqlite_dense_export sk mk m argv = tuple_branch sk mk m argv) ∧
      (argv.length % 2 ≠ 0 →
        sqlite_dense_export sk mk m argv =
          .error "Number of columns in two vectors must be divisible by two")) := by
  constructor
  · intro h
    unfold sqlite_dense_export
    rw [if_pos h]
  · intro hge hnb hnt
    have hlt : ¬ argv.length < 2 := by omega
    constructor
    · intro hev
      unfold sqlite_dense_export
      rw [if_neg hlt, if_neg (by simp [hnb]), if_neg (by simp [hnt]), if_pos hev]
    · intro hodd
      unfold sqlite_dense_export
      rw [if_neg hlt, if_neg (by simp [hnb]), if_neg (by simp [hnt]), if_neg hodd]

/-- C1 (witness): a three-column call matches no encoding and fails with the
divisibility message. -/
theorem claim_C1_witness :
    sqlite_dense_export scalar_kind_t.f64_k metric_kind_t.l2sq_k
      (fun _ _ _ _ _ => (0 : ℚ))
      [SqliteValue.integer 1, SqliteValue.integer 2, SqliteValue.integer 3] =
      .error "Number of columns in two vectors must be divisible by two" :=
  ((claim_C1_amended scalar_kind_t.f64_k metric_kind_t.l2sq_k
      (fun _ _ _ _ _ => (0 : ℚ))
      [SqliteValue.integer 1, SqliteValue.integer 2, SqliteValue.integer 3]).2
    (by decide) (by decide) (by decide)).2 (by decide)

/-- C2: two binary buffers of unequal byte length, or two delimited-text
strings with unequal comma counts, fail with the dimension-mismatch error
for every metric kernel (so no kernel is ever invoked), both at the exporter
and on the host error channel. -/
theorem claim_C2 {D : Type} (sk : scalar_kind_t) (mk : metric_kind_t) (m : metric_factory D) :
    (∀ b1 b2 : List Nat, b1.length ≠ b2.length →
      sqlite_dense_export sk mk m [SqliteValue.blob b1, SqliteValue.blob b2] =
        .error "Vectors have different number of dimensions" ∧
      sqlite_dense sk mk m [SqliteValue.blob b1, SqliteValue.blob b2] =
        .result_error "Vectors have different number of dimensions") ∧
    (∀ s1 s2 : List Char, sz_count_char_swar s1 ',' ≠ sz_count_char_swar s2 ',' →
      sqlite_dense_export sk mk m [SqliteValue.text s1, SqliteValue.text s2] =
        .error "Vectors have different number of dimensions" ∧
      sqlite_dense sk mk m [SqliteValue.text s1, SqliteValue.text s2] =
        .result_error "Vectors have different number of dimensions") := by
  constructor
  · intro b1 b2 hne
    have hexp : sqlite_dense_export sk mk m [SqliteValue.blob b1, SqliteValue.blob b2] =
        .error "Vectors have different number of dimensions" :=
      blob_branch_len_mismatch sk mk m b1 b2 hne
    exact ⟨hexp, by unfold sqlite_dense; rw [hexp]⟩
  · intro s1 s2 hne
    have hexp : sqlite_dense_export sk mk m [SqliteValue.text s1, SqliteValue.text s2] =
        .error "Vectors have different number of dimensions" :=
      text_branch_comma_mismatch sk mk m s1 s2 hne
    exact ⟨hexp, by unfold sqlite_dense; rw [hexp]⟩

/-- C2 (witness): a one-byte blob against a two-byte blob fails on the host
error channel with the dimension-mismatch message. -/
theorem claim_C2_witness :
    sqlite_dense scalar_kind_t.b1x8_k metric_kind_t.hamming_k
      (fun _ _ _ _ _ => (0 : ℚ)) [SqliteValue.blob [0], SqliteValue.blob [0, 0]] =
      .result_error "Vectors have different number of dimensions" :=
  ((claim_C2 scalar_kind_t.b1x8_k metric_kind_t.hamming_k
      (fun _ _ _ _ _ => (0 : ℚ))).1 [0] [0, 0] (by decide)).2

/-- C3: every dense call has exactly one of two outcomes — a numeric value on
the floating-point result channel, or an error message on the error channel
with no value; the error is the same under any other metric kernel, so all
errors are decided before a kernel is invoked and no partial result escapes. -/
theorem claim_C3 {D D₂ : Type} (sk : scalar_kind_t) (mk : metric_kind_t)
    (m : metric_factory D) (m₂ : metric_factory D₂) (argv : List SqliteValue) :
    (∃ d, sqlite_dense_export sk mk m argv = .ok d ∧
      sqlite_dense sk mk m argv = .result_double d) ∨
    (∃ e, sqlite_dense_export sk mk m argv = .error e ∧
      sqlite_dense sk mk m argv = .result_error e ∧
      sqlite_dense_export sk mk m₂ argv = .error e) := by
  cases h : sqlite_dense_export sk mk m argv with
  | ok d => exact Or.inl ⟨d, rfl, by unfold sqlite_dense; rw [h]⟩
  | error e =>
    exact Or.inr ⟨e, rfl, by unfold sqlite_dense; rw [h],
      export_error_indep sk mk m m₂ argv e h⟩

/-- C4: the scratch buffer is grown exactly when it is smaller than the
requested size, is never shrunk, ends any call sequence at least as large as
every size requested along the way, and is released exactly once at
teardown. -/
theorem claim_C4 :
    (∀ (mem : sz_string_view_t) (a b : SqliteValue) (r : Nat),
      levenshtein_requested a b = some r →
      (sqlite_levenshtein mem a b).1.length = if mem.length < r then r else mem.length) ∧
    (∀ (mem : sz_string_view_t) (a b : SqliteValue),
      mem.length ≤ (sqlite_levenshtein mem a b).1.length) ∧
    (∀ (calls : List (SqliteValue × SqliteValue)) (a b : SqliteValue) (r : Nat),
      (a, b) ∈ calls → levenshtein_requested a b = some r →
      r ≤ (run_levenshtein_calls temporary_memory_init calls).length) ∧
    (∀ mem : sz_string_view_t,
      (cleanup_temporary_memory mem).2 ≤ 1 ∧
      (mem.start_null = false → (cleanup_temporary_memory mem).2 = 1) ∧
      (cleanup_temporary_memory (cleanup_temporary_memory mem).1).2 = 0) := by
  refine ⟨?_, ?_, ?_, ?_⟩
  · intro mem a b r h
    rw [sqlite_levenshtein_state_text mem a b r h]
    by_cases hl : mem.length < r
    · rw [if_pos hl, if_pos hl]
    · rw [if_neg hl, if_neg hl]
  · exact sqlite_levenshtein_length_mono
  · intro calls a b r hmem hreq
    exact run_levenshtein_requested_le calls temporary_memory_init a b r hmem hreq
  · intro mem
    by_cases hs : mem.start_null = false <;>
      simp [cleanup_temporary_memory, hs]

/-- C4 (witness): one call on the one-character texts requests four bytes of
scratch memory and the final buffer is at least that large. -/
theorem claim_C4_witness :
    4 ≤ (run_levenshtein_calls temporary_memory_init
      [(SqliteValue.text ['a'], SqliteValue.text ['b'])]).length :=
  claim_C4.2.2.1 [(SqliteValue.text ['a'], SqliteValue.text ['b'])]
    (SqliteValue.text ['a']) (SqliteValue.text ['b']) 4 (by decide) (by decide)

/-- C5: the optional leading bracket is stripped before numeral parsing and
does not change the comma count, so a bracketed and an unbracketed rendering
of the same delimited text parse to identical dimension and vector contents;
in particular both renderings of a 1,2,3 pair produce the same ParsedVector
contents. -/
theorem claim_C5 :
    (∀ s : List Char, sz_count_char_swar ('[' :: s) ',' = sz_count_char_swar s ',') ∧
    (∀ s : List Char, strip_bracket ('[' :: s) = s) ∧
    (∀ s t : List Char, s.head? ≠ some '[' → t.head? ≠ some '[' →
      text_parse ('[' :: s) ('[' :: t) = text_parse s t) ∧
    (∃ p1 p2 : List ℚ,
      text_parse ("[1,2,3]".data) ("[1,2,3]".data) = .ok (3, p1, p2) ∧
      text_parse ("1,2,3".data) ("1,2,3".data) = .ok (3, p1, p2)) := by
  refine ⟨count_comma_lbrack_cons, strip_bracket_lbrack, ?_, ?_⟩
  · intro s t hs ht
    unfold text_parse
    rw [count_comma_lbrack_cons s, count_comma_lbrack_cons t,
      strip_bracket_lbrack s, strip_bracket_lbrack t,
      strip_bracket_head_ne s hs, strip_bracket_head_ne t ht]
  · exact ⟨_, _, rfl, rfl⟩

/-- C5 (witness): stripping the bracket from concrete single-numeral inputs
gives the same parse as the unbracketed inputs. -/
theorem claim_C5_witness :
    text_parse ('[' :: ("7".data)) ('[' :: ("8".data)) =
      text_parse ("7".data) ("8".data) :=
  claim_C5.2.2.1 ("7".data) ("8".data) (by decide) (by decide)

/-- C6: `distance_haversine_meters` multiplies a successful raw metric result
by the mean Earth radius in meters; on failure no scaling happens and the
error is emitted; and with the haversine kernel two identical coordinate
pairs give distance 0. -/
theorem claim_C6 :
    (∀ (D : Type) [Mul D] [OfNat D 6371009] (m : metric_factory D)
        (argv : List SqliteValue) (r : D),
      sqlite_dense_export scalar_kind_t.f64_k metric_kind_t.haversine_k m argv = .ok r →
      sqlite_haversine_meters m argv = .result_double (r * 6371009)) ∧
    (∀ (D : Type) [Mul D] [OfNat D 6371009] (m : metric_factory D)
        (argv : List SqliteValue) (e : String),
      sqlite_dense_export scalar_kind_t.f64_k metric_kind_t.haversine_k m argv = .error e →
      sqlite_haversine_meters m argv = .result_error e) ∧
    (∀ lat lon : ℚ,
      sqlite_haversine_meters haversine_metric_t
        [SqliteValue.float lat, SqliteValue.float lon, SqliteValue.float lat, SqliteValue.float lon] =
        .result_double 0) := by
  refine ⟨?_, ?_, ?_⟩
  · intro D _ _ m argv r h
    unfold sqlite_haversine_meters
    rw [h]
  · intro D _ _ m argv e h
    unfold sqlite_haversine_meters
    rw [h]
  · intro lat lon
    have hlen2 : ([SqliteValue.float lat, SqliteValue.float lon, SqliteValue.float lat,
        SqliteValue.float lon].length / 2) = 2 := by norm_num
    have h0 : sqlite_dense_export scalar_kind_t.f64_k metric_kind_t.haversine_k
        haversine_metric_t
        [SqliteValue.float lat, SqliteValue.float lon, SqliteValue.float lat, SqliteValue.float lon] =
        .ok (haversine_kernel [lat, lon] [lat, lon]) := by
      rw [export_tuple_route scalar_kind_t.f64_k metric_kind_t.haversine_k haversine_metric_t
        [SqliteValue.float lat, SqliteValue.float lon, SqliteValue.float lat, SqliteValue.float lon]
        (by norm_num) rfl rfl (by norm_num)]
      unfold tuple_branch
      rw [hlen2]
      rfl
    unfold sqlite_haversine_meters
    rw [h0]
    show SqliteResult.result_double (haversine_kernel [lat, lon] [lat, lon] * 6371009) =
      SqliteResult.result_double 0
    rw [hav_kernel_self, zero_mul]

/-- C6 (witness): with a constant kernel returning 2 on a dimension-1 column
tuple, the emitted value is 2 times the Earth radius. -/
theorem claim_C6_witness :
    sqlite_haversine_meters (fun _ _ _ _ _ => (2 : ℚ))
      [SqliteValue.integer 1, SqliteValue.integer 2] =
      SqliteResult.result_double (2 * 6371009) :=
  claim_C6.1 ℚ (fun _ _ _ _ _ => (2 : ℚ))
    [SqliteValue.integer 1, SqliteValue.integer 2] 2 rfl

/-- C7: in the scalar-column branch every argument is individually coerced —
FLOAT as-is, INTEGER widened, NULL as zero — and the kernel receives the two
mapped halves; if any argument has another type the call fails with the
unsupported-type message and no distance is computed. -/
theorem claim_C7 {D : Type} (sk : scalar_kind_t) (mk : metric_kind_t) (m : metric_factory D)
    (argv : List SqliteValue) (h2 : 2 ≤ argv.length) (heven : argv.length % 2 = 0)
    (hnb : is_blob_pair argv = false) (hnt : is_text_pair argv = false) :
    ((∀ v ∈ argv, scalar_column_ok v) →
      sqlite_dense_export sk mk m argv =
        .ok (m (argv.length / 2) mk (parsed_scalar_kind sk)
          (.scalars ((argv.take (argv.length / 2)).map column_value))
          (.scalars ((argv.drop (argv.length / 2)).map column_value)))) ∧
    ((∃ v ∈ argv, ¬ scalar_column_ok v) →
      sqlite_dense_export sk mk m argv =
        .error "Scalar columns may only contain 32-bit integers, floats, or NULLs.") := by
  have hroute : sqlite_dense_export sk mk m argv = tuple_branch sk mk m argv :=
    export_tuple_route sk mk m argv h2 hnb hnt heven
  have hlen : (argv.take (argv.length / 2)).length = (argv.drop (argv.length / 2)).length := by
    rw [List.length_take, List.length_drop]
    omega
  constructor
  · intro hall
    rw [hroute]
    unfold tuple_branch
    rw [parse_column_pairs_all_ok (argv.take (argv.length / 2)) (argv.drop (argv.length / 2))
      hlen (fun v hv => hall v ((List.take_sublist _ _).subset hv))
      (fun v hv => hall v ((List.drop_sublist _ _).subset hv))]
  · rintro ⟨v, hv, hnv⟩
    rw [hroute]
    unfold tuple_branch
    have hsplit : v ∈ argv.take (argv.length / 2) ∨ v ∈ argv.drop (argv.length / 2) := by
      rw [← List.take_append_drop (argv.length / 2) argv] at hv
      exact List.mem_append.mp hv
    rcases hsplit with hin | hin
    · rw [parse_column_pairs_bad (argv.take (argv.length / 2)) (argv.drop (argv.length / 2))
        hlen (Or.inl ⟨v, hin, hnv⟩)]
    · rw [parse_column_pairs_bad (argv.take (argv.length / 2)) (argv.drop (argv.length / 2))
        hlen (Or.inr ⟨v, hin, hnv⟩)]

/-- C7 (witness): an INTEGER, NULL, FLOAT, INTEGER four-column call succeeds
and hands the kernel the two coerced halves. -/
theorem claim_C7_witness :
    sqlite_dense_export scalar_kind_t.f32_k metric_kind_t.cos_k
      (fun _ _ _ _ _ => (7 : ℚ))
      [SqliteValue.integer 1, SqliteValue.null, SqliteValue.float 3, SqliteValue.integer (-2)] =
      Except.ok 7 :=
  (claim_C7 scalar_kind_t.f32_k metric_kind_t.cos_k (fun _ _ _ _ _ => (7 : ℚ))
    [SqliteValue.integer 1, SqliteValue.null, SqliteValue.float 3, SqliteValue.integer (-2)]
    (by decide) (by decide) (by decide) (by decide)).1 (by decide)

/-- C8: `distance_levenshtein` on two text arguments returns the edit
distance capped at cost 255; kitten against kitten gives 0 and the empty
string against abc gives 3. -/
theorem claim_C8 :
    (∀ (mem : sz_string_view_t) (s t : List Char),
      (sqlite_levenshtein mem (SqliteValue.text s) (SqliteValue.text t)).2 =
        .result_int (sz_levenshtein s t 255)) ∧
    (∀ mem : sz_string_view_t,
      (sqlite_levenshtein mem (SqliteValue.text ("kitten".data))
        (SqliteValue.text ("kitten".data))).2 = .result_int 0) ∧
    (∀ mem : sz_string_view_t,
      (sqlite_levenshtein mem (SqliteValue.text ("".data))
        (SqliteValue.text ("abc".data))).2 = .result_int 3) := by
  refine ⟨?_, ?_, ?_⟩ <;> intros <;> rfl

/-- C9: the dimension that sizes the working arrays of the delimited-text
branch is the caller-controlled separator count plus one, unbounded in the
input length. -/
theorem claim_C9_dimension_unbounded (n : Nat) :
    sz_count_char_swar (List.replicate n ',') ',' + 1 = n + 1 := by
  simp [sz_count_char_swar]

/-- C10: if either argument of `distance_levenshtein` is not text, the call
fails with the expects-two-text-arguments message, no value is set and the
scratch buffer is untouched. -/
theorem claim_C10 (mem : sz_string_view_t) (arg0 arg1 : SqliteValue)
    (h : ¬ (sqlite3_value_type arg0 = SqliteType.textT ∧
      sqlite3_value_type arg1 = SqliteType.textT)) :
    sqlite_levenshtein mem arg0 arg1 =
      (mem, .result_error "Levenshtein distance function expects two text arguments") := by
  unfold sqlite_levenshtein
  rw [if_pos (by tauto)]

/-- C10 (witness): an INTEGER first argument is rejected with the scratch
buffer left in its initial state. -/
theorem claim_C10_witness :
    sqlite_levenshtein temporary_memory_init (SqliteValue.integer 7) (SqliteValue.text ['x']) =
      (temporary_memory_init,
        .result_error "Levenshtein distance function expects two text arguments") :=
  claim_C10 temporary_memory_init (SqliteValue.integer 7) (SqliteValue.text ['x']) (by decide)
